import Mathlib

/-
Verification of the `urt` library's union types against their specification.

The library (src/erroroption.rs, src/double.rs) defines two tagged unions:
`ErrorOption<T, E>` with states `Value(T)`, `Empty`, `Error(E)`, and
`Double<T, U>` with states `This(T)`, `That(U)`.  The definitions below are a
shallow embedding of the combinators the claims are about.  Rust's
`Result<T, E>` is embedded as `Except E T` (`Ok` as `Except.ok`, `Err` as
`Except.error`); Rust's `Option<T>` as Lean's `Option T`.  A combinator that
aborts fatally on some inputs (`Double::unwrap_union`) is embedded as a
function into `Option`, with `none` on exactly the aborting inputs.  A
combinator that mutates through `&mut self` (`ErrorOption::take`) is embedded
as a function returning the pair (returned value, state left behind).
-/

namespace Urt

/-- Rust's `Default` trait: a distinguished value of the type.  The `Int`
instance mirrors `i32::default() == 0`. -/
class RustDefault (T : Type) where
  default : T

instance : RustDefault Int := ⟨0⟩

/-- The `ErrorOption` enum of src/erroroption.rs: `Value(T)` | `Empty` |
`Error(E)`. -/
inductive ErrorOption (T E : Type) where
  | Value : T → ErrorOption T E
  | Empty : ErrorOption T E
  | Error : E → ErrorOption T E
deriving DecidableEq, Repr

/-- The `impl Default for ErrorOption` of src/erroroption.rs: the default
state is `Empty`. -/
instance {T E : Type} : RustDefault (ErrorOption T E) := ⟨ErrorOption.Empty⟩

namespace ErrorOption

variable {T E U : Type}

/-- `ErrorOption::is_value`: `matches!(self, Value(_))`. -/
def is_value : ErrorOption T E → Bool
  | .Value _ => true
  | _ => false

/-- `ErrorOption::as_option`: `Value(v)` to `Some(v)`, all else to `None`. -/
def as_option : ErrorOption T E → Option T
  | .Value v => some v
  | _ => none

/-- `ErrorOption::as_result` (requires `T: Default`): `Value(v)` to `Ok(v)`,
`Empty` to `Ok(T::default())`, `Error(e)` to `Err(e)`. -/
def as_result [RustDefault T] : ErrorOption T E → Except E T
  | .Value v => .ok v
  | .Empty => .ok RustDefault.default
  | .Error e => .error e

/-- `ErrorOption::value_or_default`: `Value(v)` to `Ok(v)`, `Empty` to
`Err(err)` with the supplied `err`, `Error(e)` to `Err(e)` with the original
payload. -/
def value_or_default (x : ErrorOption T E) (err : E) : Except E T :=
  match x with
  | .Value v => .ok v
  | .Empty => .error err
  | .Error e => .error e

/-- `ErrorOption::filter`: keeps `Value(v)` when the predicate holds of `v`,
otherwise produces `Empty`. -/
def filter (x : ErrorOption T E) (predicate : T → Bool) : ErrorOption T E :=
  match x with
  | .Value v => if predicate v then .Value v else .Empty
  | _ => .Empty

/-- `ErrorOption::xor`: its four explicit match arms produce the `Value`
operand; the catch-all arm produces `Empty`. -/
def xor (x optb : ErrorOption T E) : ErrorOption T E :=
  match x, optb with
  | .Value v, .Error _ => .Value v
  | .Value v, .Empty => .Value v
  | .Error _, .Value v => .Value v
  | .Empty, .Value v => .Value v
  | _, _ => .Empty

/-- `ErrorOption::take`: `mem::take(self)` returns the current state and
leaves the default state behind.  Embedded as (returned value, state left
behind). -/
def take (x : ErrorOption T E) : ErrorOption T E × ErrorOption T E :=
  (x, RustDefault.default)

/-- `ErrorOption::zip`: `(Value(a), Value(b))` to `Value((a, b))`; the
catch-all arm produces `Empty`. -/
def zip (x : ErrorOption T E) (other : ErrorOption U E) :
    ErrorOption (T × U) E :=
  match x, other with
  | .Value a, .Value b => .Value (a, b)
  | _, _ => .Empty

end ErrorOption

/-- The `IntoIter` struct of src/erroroption.rs: `inner: Option<T>`. -/
structure IntoIter (T : Type) where
  inner : Option T
deriving DecidableEq, Repr

namespace IntoIter

variable {T : Type}

/-- `Iterator::next` for `IntoIter`: `self.inner.take()` returns the held
option and leaves `None` in its place.  Embedded as (yielded item, iterator
state afterwards). -/
def next (it : IntoIter T) : Option T × IntoIter T :=
  (it.inner, ⟨none⟩)

/-- `DoubleEndedIterator::next_back` for `IntoIter`: also `self.inner.take()`. -/
def next_back (it : IntoIter T) : Option T × IntoIter T :=
  (it.inner, ⟨none⟩)

/-- `Iterator::size_hint` for `IntoIter`: `(n, Some(n))` where `n` is 1 when
an item is held, 0 otherwise. -/
def size_hint (it : IntoIter T) : Nat × Option Nat :=
  let n : Nat := if it.inner.isSome then 1 else 0
  (n, some n)

end IntoIter

/-- `impl IntoIterator for ErrorOption`: `IntoIter { inner: self.as_option() }`. -/
def ErrorOption.into_iter {T E : Type} (x : ErrorOption T E) : IntoIter T :=
  ⟨x.as_option⟩

/-- The `Double` enum of src/double.rs: `This(T)` | `That(U)`. -/
inductive Double (T U : Type) where
  | This : T → Double T U
  | That : U → Double T U
deriving DecidableEq, Repr

namespace Double

variable {T U O : Type}

/-- `Double::flip`: `This(t)` to `That(t)`, `That(u)` to `This(u)`. -/
def flip : Double T U → Double U T
  | .This t => .That t
  | .That u => .This u

/-- `Double::unwrap_union`: combines opposite variants with `f`, always
passing the `This` payload first; on two equal variants the source aborts
fatally, embedded here as `none`. -/
def unwrap_union (x other : Double T U) (f : T → U → O) : Option O :=
  match x, other with
  | .This a, .That b => some (f a b)
  | .That a, .This b => some (f b a)
  | .This _, .This _ => none
  | .That _, .That _ => none

end Double

/-- C1: `value_or_default` maps `Value v` to `Ok v`; `Empty` to `Err` of the
supplied default; `Error orig` to `Err orig`, preserving the original error
payload rather than substituting the supplied one. -/
theorem value_or_default_spec (T E : Type) (v : T) (orig e : E) :
    (ErrorOption.Value v : ErrorOption T E).value_or_default e = Except.ok v ∧
    (ErrorOption.Empty : ErrorOption T E).value_or_default e =
      Except.error e ∧
    (ErrorOption.Error orig : ErrorOption T E).value_or_default e =
      Except.error orig :=
  ⟨rfl, rfl, rfl⟩

/-- C2: `as_result` maps `Value v` to `Ok v`, `Empty` to `Ok` of the value
type's default, and `Error e` to `Err e`; in particular at `T = i32` (default
0), `Value 42` gives `Ok 42`, `Empty` gives `Ok 0`, and `Error "e"` gives
`Err "e"`. -/
theorem as_result_spec (T E : Type) [RustDefault T] (v : T) (e : E) :
    (ErrorOption.Value v : ErrorOption T E).as_result = Except.ok v ∧
    (ErrorOption.Empty : ErrorOption T E).as_result =
      Except.ok RustDefault.default ∧
    (ErrorOption.Error e : ErrorOption T E).as_result = Except.error e ∧
    (ErrorOption.Value 42 : ErrorOption Int String).as_result =
      Except.ok 42 ∧
    (ErrorOption.Empty : ErrorOption Int String).as_result = Except.ok 0 ∧
    (ErrorOption.Error "e" : ErrorOption Int String).as_result =
      Except.error "e" :=
  ⟨rfl, rfl, rfl, rfl, rfl, rfl⟩

/-- C3: `zip` produces `Value (a, b)` exactly when both operands are `Value a`
and `Value b`; every other combination of states produces `Empty`, discarding
any present error payload. -/
theorem zip_spec (T U E : Type) (x : ErrorOption T E) (y : ErrorOption U E) :
    (∀ a b, x.zip y = ErrorOption.Value (a, b) ↔
      (x = ErrorOption.Value a ∧ y = ErrorOption.Value b)) ∧
    ((∃ a b, x = ErrorOption.Value a ∧ y = ErrorOption.Value b) ∨
      x.zip y = ErrorOption.Empty) := by
  cases x <;> cases y <;> simp [ErrorOption.zip]

/-- C4: `unwrap_union` on `This a` and `That b` returns `f a b`; on two
unions holding the same variant (both `This`, or both `That`) it aborts
fatally (embedded as `none`) rather than returning a value. -/
theorem unwrap_union_spec (T U O : Type) (a a2 : T) (b b2 : U)
    (f : T → U → O) :
    (Double.This a : Double T U).unwrap_union (Double.That b) f =
      some (f a b) ∧
    (Double.This a : Double T U).unwrap_union (Double.This a2) f = none ∧
    (Double.That b : Double T U).unwrap_union (Double.That b2) f = none :=
  ⟨rfl, rfl, rfl⟩

/-- C5: the consuming iterator of `Value v` holds exactly the one element `v`
and yields it on `next` (or on `next_back`), leaving the exhausted iterator,
on which every further `next` or `next_back` yields nothing and leaves the
state unchanged, forever; the iterators of `Empty` and of `Error e` hold no
element; `size_hint` reports exactly 1 before yielding on `Value` and exactly
0 when exhausted or empty. -/
theorem into_iter_spec (T E : Type) (v : T) (e : E) :
    (ErrorOption.Value v : ErrorOption T E).into_iter = ⟨some v⟩ ∧
    (ErrorOption.Empty : ErrorOption T E).into_iter = ⟨none⟩ ∧
    (ErrorOption.Error e : ErrorOption T E).into_iter = ⟨none⟩ ∧
    (⟨some v⟩ : IntoIter T).next = (some v, ⟨none⟩) ∧
    (⟨some v⟩ : IntoIter T).next_back = (some v, ⟨none⟩) ∧
    (⟨none⟩ : IntoIter T).next = (none, ⟨none⟩) ∧
    (⟨none⟩ : IntoIter T).next_back = (none, ⟨none⟩) ∧
    (⟨some v⟩ : IntoIter T).size_hint = (1, some 1) ∧
    (⟨none⟩ : IntoIter T).size_hint = (0, some 0) ∧
    (∀ n : Nat,
      (fun it : IntoIter T => it.next.2)^[n] ⟨none⟩ = (⟨none⟩ : IntoIter T)) :=
  ⟨rfl, rfl, rfl, rfl, rfl, rfl, rfl, rfl, rfl,
    fun n => Function.iterate_fixed rfl n⟩

/-- C6: `flip` is its own inverse: `flip (flip x) = x` for every `Double`. -/
theorem flip_flip (T U : Type) (x : Double T U) : x.flip.flip = x := by
  cases x <;> rfl

/-- C7: `xor` returns the operand that is `Value` when exactly one of the two
is; in every other case (both non-`Value`, or both `Value`) it returns
`Empty`, never aborting. -/
theorem xor_spec (T E : Type) (x y : ErrorOption T E) :
    x.xor y =
      if x.is_value && !y.is_value then x
      else if !x.is_value && y.is_value then y
      else ErrorOption.Empty := by
  cases x <;> cases y <;> simp [ErrorOption.xor, ErrorOption.is_value]

/-- C8: `take` returns the current state unchanged and leaves the union
holding `Empty` afterwards, whatever the state was. -/
theorem take_spec (T E : Type) (s : ErrorOption T E) :
    s.take.1 = s ∧ s.take.2 = ErrorOption.Empty :=
  ⟨rfl, rfl⟩

/-- C9: `filter p` produces `Value v` exactly when the input is `Value v` and
`p v` holds; in every other case, `Error e` included, it produces `Empty` (it
never produces `Error`), so filtering discards an existing error payload. -/
theorem filter_spec (T E : Type) (x : ErrorOption T E) (p : T → Bool) :
    (∀ v, x.filter p = ErrorOption.Value v ↔
      (x = ErrorOption.Value v ∧ p v = true)) ∧
    (∀ e, (ErrorOption.Error e : ErrorOption T E).filter p =
      ErrorOption.Empty) ∧
    ((∃ v, x.filter p = ErrorOption.Value v) ∨
      x.filter p = ErrorOption.Empty) := by
  refine ⟨?_, fun e => rfl, ?_⟩
  · intro v
    cases x with
    | Value w =>
      by_cases h : p w = true <;>
        simp only [ErrorOption.filter, h, if_true, if_false,
          Bool.false_eq_true, ErrorOption.Value.injEq]
      · constructor
        · rintro rfl; exact ⟨rfl, h⟩
        · rintro ⟨rfl, _⟩; rfl
      · constructor
        · rintro ⟨⟩
        · rintro ⟨rfl, hv⟩; exact absurd hv h
    | Empty => simp [ErrorOption.filter]
    | Error e => simp [ErrorOption.filter]
  · cases x with
    | Value w =>
      by_cases h : p w = true
      · exact Or.inl ⟨w, by simp [ErrorOption.filter, h]⟩
      · exact Or.inr (by simp [ErrorOption.filter, h])
    | Empty => exact Or.inr rfl
    | Error e => exact Or.inr rfl

/-- C10: `unwrap_union` with the variants reversed — `That a` combined with
`This b` — returns `f b a`: the `This` payload is always the first argument
of `f`, whichever operand carried it. -/
theorem unwrap_union_reversed_spec (T U O : Type) (a : U) (b : T)
    (f : T → U → O) :
    (Double.That a : Double T U).unwrap_union (Double.This b) f =
      some (f b a) :=
  rfl

end Urt
